import Mathlib

/-!
Verification of `pyrasterframes/rf_ipython.py`.

A shallow embedding of the notebook rendering module of rasterframes:
`tile_to_png`, `tile_to_html` and `pandas_df_to_html`, together with a
faithful model of Python's `base64.b64encode` (standard alphabet, with
padding, no line breaks) that the HTML image wrapper relies on.

Bytes are modelled as `Fin 256` (the values a Python `bytes` object holds),
exceptions as `Except`, the pandas global display-option state as an
explicit record threaded through `pandas_df_to_html`, and the external
collaborators (the matplotlib PNG backend, pandas `DataFrame.to_html` and
`_repr_html_`) as parameters, since their code lives outside this module.
-/

namespace RfIpython

/-! ## Base64 (model of Python `base64.b64encode` / `base64.b64decode`) -/

/-- The standard base64 alphabet, in index order. -/
def b64Chars : List Char :=
  ['A', 'B', 'C', 'D', 'E', 'F', 'G', 'H', 'I', 'J', 'K', 'L', 'M',
   'N', 'O', 'P', 'Q', 'R', 'S', 'T', 'U', 'V', 'W', 'X', 'Y', 'Z',
   'a', 'b', 'c', 'd', 'e', 'f', 'g', 'h', 'i', 'j', 'k', 'l', 'm',
   'n', 'o', 'p', 'q', 'r', 's', 't', 'u', 'v', 'w', 'x', 'y', 'z',
   '0', '1', '2', '3', '4', '5', '6', '7', '8', '9', '+', '/']

/-- Character for a 6-bit group. -/
def b64CharOf (n : Nat) : Char := b64Chars.getD n 'A'

/-- Index of a character in the base64 alphabet (64 when absent). -/
def b64IndexOf (c : Char) : Nat := b64Chars.indexOf c

/-- Standard base64 encoding of a byte string, with `=` padding and no
line breaks, as produced by Python's `base64.b64encode`. -/
def b64encode : List (Fin 256) → List Char
  | [] => []
  | [b1] =>
      [b64CharOf (b1.val / 4), b64CharOf (b1.val % 4 * 16), '=', '=']
  | [b1, b2] =>
      [b64CharOf (b1.val / 4), b64CharOf (b1.val % 4 * 16 + b2.val / 16),
       b64CharOf (b2.val % 16 * 4), '=']
  | b1 :: b2 :: b3 :: rest =>
      b64CharOf (b1.val / 4) :: b64CharOf (b1.val % 4 * 16 + b2.val / 16) ::
      b64CharOf (b2.val % 16 * 4 + b3.val / 64) :: b64CharOf (b3.val % 64) ::
      b64encode rest

/-- Standard base64 decoding back to byte values. -/
def b64decode : List Char → List Nat
  | c1 :: c2 :: c3 :: c4 :: rest =>
      let i1 := b64IndexOf c1
      let i2 := b64IndexOf c2
      if c3 = '=' then
        [i1 * 4 + i2 / 16]
      else
        let i3 := b64IndexOf c3
        if c4 = '=' then
          [i1 * 4 + i2 / 16, i2 % 16 * 16 + i3 / 4]
        else
          let i4 := b64IndexOf c4
          (i1 * 4 + i2 / 16) :: (i2 % 16 * 16 + i3 / 4) :: (i3 % 4 * 64 + i4) ::
            b64decode rest
  | _ => []

theorem b64IndexOf_b64CharOf : ∀ n, n < 64 → b64IndexOf (b64CharOf n) = n := by
  decide

theorem b64CharOf_ne_pad : ∀ n, n < 64 → b64CharOf n ≠ '=' := by
  decide

theorem b64CharOf_lt_ne_nl : ∀ n, n < 64 → b64CharOf n ≠ '\n' := by
  decide

theorem b64CharOf_ne_nl (n : Nat) : b64CharOf n ≠ '\n' := by
  by_cases h : n < 64
  · exact b64CharOf_lt_ne_nl n h
  · unfold b64CharOf
    rw [List.getD_eq_default]
    · decide
    · have : b64Chars.length = 64 := by decide
      omega

/-- Round trip: decoding the encoding of a byte string recovers the bytes. -/
theorem b64decode_b64encode : ∀ bs : List (Fin 256),
    b64decode (b64encode bs) = bs.map Fin.val
  | [] => by simp [b64encode, b64decode]
  | [b1] => by
      have h1 := b1.isLt
      simp only [b64encode, b64decode, List.map, if_true]
      rw [b64IndexOf_b64CharOf _ (by omega), b64IndexOf_b64CharOf _ (by omega)]
      simp only [List.cons.injEq, and_true]
      omega
  | [b1, b2] => by
      have h1 := b1.isLt
      have h2 := b2.isLt
      simp only [b64encode, b64decode, List.map]
      rw [if_neg (b64CharOf_ne_pad _ (by omega))]
      simp only [if_true]
      rw [b64IndexOf_b64CharOf _ (by omega), b64IndexOf_b64CharOf _ (by omega),
          b64IndexOf_b64CharOf _ (by omega)]
      simp only [List.cons.injEq, and_true]
      omega
  | b1 :: b2 :: b3 :: rest => by
      have h1 := b1.isLt
      have h2 := b2.isLt
      have h3 := b3.isLt
      have ih := b64decode_b64encode rest
      simp only [b64encode, b64decode, List.map]
      rw [if_neg (b64CharOf_ne_pad _ (by omega)),
          if_neg (b64CharOf_ne_pad _ (by omega)),
          b64IndexOf_b64CharOf _ (by omega), b64IndexOf_b64CharOf _ (by omega),
          b64IndexOf_b64CharOf _ (by omega), b64IndexOf_b64CharOf _ (by omega),
          ih]
      simp only [List.cons.injEq]
      exact ⟨by omega, by omega, by omega, trivial⟩

/-- No character of a base64 encoding is a line break. -/
theorem b64encode_no_nl : ∀ bs : List (Fin 256), ∀ c ∈ b64encode bs, c ≠ '\n'
  | [] => by simp [b64encode]
  | [b1] => by
      simp only [b64encode, List.mem_cons, List.not_mem_nil, or_false]
      rintro c (rfl | rfl | rfl | rfl) <;> first | exact b64CharOf_ne_nl _ | decide
  | [b1, b2] => by
      simp only [b64encode, List.mem_cons, List.not_mem_nil, or_false]
      rintro c (rfl | rfl | rfl | rfl) <;> first | exact b64CharOf_ne_nl _ | decide
  | b1 :: b2 :: b3 :: rest => by
      have ih := b64encode_no_nl rest
      simp only [b64encode, List.mem_cons]
      rintro c (rfl | rfl | rfl | rfl | hmem)
      · exact b64CharOf_ne_nl _
      · exact b64CharOf_ne_nl _
      · exact b64CharOf_ne_nl _
      · exact b64CharOf_ne_nl _
      · exact ih c hmem

/-! ## Data model: tiles and external collaborators -/

/-- Exceptions raised by the embedded Python code. -/
inductive PyError where
  /-- `TypeError`, as raised by `base64.b64encode(None)`. -/
  | typeError : PyError
  /-- An exception escaping `DataFrame.to_html`. -/
  | toHtmlError : String → PyError
deriving DecidableEq

/-- A tile's 2-D numeric cell grid. -/
structure CellGrid where
  rows : List (List Int)
deriving DecidableEq

/-- A tile's cell-type descriptor; only its displayable representation is
read by this module. -/
structure CellType where
  reprStr : String
deriving DecidableEq

/-- A raster tile, as consumed by this module: a possibly absent cell grid,
dimensions, a cell type, and its own `__repr__` string. -/
structure Tile where
  cells : Option CellGrid
  width : Nat
  height : Nat
  cell_type : CellType
  reprStr : String
deriving DecidableEq

/-- The `tile.dimensions()` accessor: returns the (width, height) pair. -/
def Tile.dimensions (t : Tile) : Nat × Nat := (t.width, t.height)

/-- The matplotlib Agg backend, modelled as an external function producing
PNG bytes from the figure size, the plotted cell grid and the title. -/
structure PlotBackend where
  print_png : ℚ × ℚ → CellGrid → String → List (Fin 256)

/-! ## `tile_to_png` -/

/-- Fixed DPI constant of `tile_to_png`. -/
def dpi : ℚ := 300

/-- Fixed nominal-size constant of `tile_to_png` (approx full size for a
256x256 tile). -/
def nominal_size : ℚ := 5.5

/-- The title string set on the figure: dimensions followed by the cell
type's representation, per the source's format template. -/
def png_title (t : Tile) : String :=
  "(" ++ toString t.width ++ ", " ++ toString t.height ++ "), " ++
    t.cell_type.reprStr ++ ")"

/-- Model of `tile_to_png`: `None` when the cell grid is absent, otherwise the PNG
bytes the backend prints for a figure sized from the tile's dimensions. -/
def tile_to_png (backend : PlotBackend) (tile : Tile) : Option (List (Fin 256)) :=
  match tile.cells with
  | none => none
  | some grid =>
      let (width, height) := tile.dimensions
      let figsize : ℚ × ℚ :=
        (nominal_size * (width : ℚ) / dpi, nominal_size * (height : ℚ) / dpi)
      some (backend.print_png figsize grid (png_title tile))

/-! ## `tile_to_html` -/

/-- Python's `base64.b64encode` applied to the value returned by
`tile_to_png`: encodes bytes, raises `TypeError` on `None`. -/
def b64encodePy : Option (List (Fin 256)) → Except PyError (List Char)
  | none => .error .typeError
  | some bs => .ok (b64encode bs)

/-- Python `str.replace` of every line break with the empty string. -/
def replaceNewlines (cs : List Char) : List Char :=
  cs.filter (fun c => c != '\n')

/-- Model of `tile_to_html`: base64-encode the PNG bytes, strip line breaks and
substitute into the fixed `img` template. -/
def tile_to_html (backend : PlotBackend) (tile : Tile) : Except PyError String := do
  let png_bits := tile_to_png backend tile
  let b64 ← b64encodePy png_bits
  let b64_png := replaceNewlines b64
  pure ("<img src=\"data:image/png;base64," ++ String.mk b64_png ++ "\" />")

/-! ## `pandas_df_to_html` -/

/-- A Python value held in a dataframe cell: either a Tile instance or any
other object, carried with its `__repr__` string. -/
inductive PyVal where
  | tile : Tile → PyVal
  | other : String → PyVal
deriving DecidableEq

/-- The `__repr__` of a cell value. -/
def PyVal.py_repr : PyVal → String
  | .tile t => t.reprStr
  | .other s => s

/-- The `isinstance(v, pyrasterframes.rf_types.Tile)` check. -/
def PyVal.isTile : PyVal → Bool
  | .tile _ => true
  | .other _ => false

/-- A pandas dataframe: named columns and a list of rows aligned with
them. -/
structure DataFrame where
  cols : List String
  cells : List (List PyVal)

/-- Python `len(df)`: the number of rows. -/
def DataFrame.len (df : DataFrame) : Nat := df.cells.length

/-- Python `df.iloc[0][c]`: the value of column `c` in the first row. -/
def DataFrame.iloc0 (df : DataFrame) (c : String) : PyVal :=
  ((df.cells.head?).getD []).getD (df.cols.indexOf c) (.other "")

/-- The pandas global display options read or written by this module. -/
structure PandasOptions where
  notebook_repr_html : Bool
  max_colwidth : Int
  max_rows : Int
  max_columns : Int
  show_dimensions : Bool
deriving DecidableEq

/-- The keyword arguments `pandas_df_to_html` passes to `df.to_html`. -/
structure ToHtmlArgs where
  escape : Bool
  formatters : List (String × (PyVal → Except PyError String))
  render_links : Bool
  notebook : Bool
  max_rows : Int
  max_cols : Int
  show_dimensions : Bool

/-- The external pandas machinery: `df.to_html` (which may raise and also
reads the global options) and `df._repr_html_()`, plus the plotting
backend used for tile cells. -/
structure PandasEnv where
  backend : PlotBackend
  to_html : DataFrame → ToHtmlArgs → PandasOptions → Except PyError String
  repr_html : DataFrame → String

/-- Model of `_safe_tile_to_html`: render a Tile via `tile_to_html`, anything else
via its own `__repr__`. -/
def _safe_tile_to_html (backend : PlotBackend) (t : PyVal) : Except PyError String :=
  match t with
  | .tile tl => tile_to_html backend tl
  | .other s => .ok (PyVal.py_repr (.other s))

/-- The `tile_cols` loop: columns whose first-row value is a Tile. -/
def tile_cols (df : DataFrame) : List String :=
  df.cols.filter (fun c => (df.iloc0 c).isTile)

/-- The formatter dict: each tile-bearing column mapped to
`_safe_tile_to_html`. -/
def df_formatter (backend : PlotBackend) (df : DataFrame) :
    List (String × (PyVal → Except PyError String)) :=
  (tile_cols df).map (fun c => (c, _safe_tile_to_html backend))

/-- The keyword arguments of the `df.to_html` call, with the option values
read from the (already toggled) global option state. -/
def df_to_html_args (env : PandasEnv) (opts1 : PandasOptions) (df : DataFrame) :
    ToHtmlArgs :=
  { escape := false
    formatters := df_formatter env.backend df
    render_links := true
    notebook := true
    max_rows := opts1.max_rows
    max_cols := opts1.max_columns
    show_dimensions := opts1.show_dimensions }

/-- Model of `pandas_df_to_html`, with the global option state threaded explicitly.
The result pairs the Python outcome (`.ok none` = the function returns
`None`, `.ok (some s)` = it returns the HTML string, `.error e` = an
exception propagates out of `df.to_html`) with the option state at exit.
Note the source has no `try`/`finally`: on the exception path the
`set_option` restoring `max_colwidth` is never reached. -/
def pandas_df_to_html (env : PandasEnv) (opts : PandasOptions) (df : DataFrame) :
    Except PyError (Option String) × PandasOptions :=
  if !opts.notebook_repr_html then
    (.ok none, opts)
  else if df.len = 0 then
    (.ok (some (env.repr_html df)), opts)
  else
    let default_max_colwidth := opts.max_colwidth
    let opts1 := { opts with max_colwidth := -1 }
    match env.to_html df (df_to_html_args env opts1 df) opts1 with
    | .error e => (.error e, opts1)
    | .ok return_html =>
        (.ok (some return_html), { opts1 with max_colwidth := default_max_colwidth })

/-! ## Helper lemmas and concrete sample values -/

theorem replaceNewlines_b64encode (bs : List (Fin 256)) :
    replaceNewlines (b64encode bs) = b64encode bs := by
  unfold replaceNewlines
  rw [List.filter_eq_self]
  intro c hc
  simpa using b64encode_no_nl bs c hc

def sampleGrid : CellGrid := ⟨[[1, 2], [3, 4]]⟩

def sampleCellType : CellType := ⟨"uint8"⟩

def sampleTile : Tile :=
  { cells := some sampleGrid, width := 2, height := 3,
    cell_type := sampleCellType, reprStr := "Tile" }

def noCellsTile : Tile :=
  { cells := none, width := 2, height := 3,
    cell_type := sampleCellType, reprStr := "Tile" }

def sampleBackend : PlotBackend := ⟨fun _ _ _ => [137, 80, 78, 71]⟩

def sampleEnvOk : PandasEnv :=
  { backend := sampleBackend
    to_html := fun _ _ _ => .ok "<table></table>"
    repr_html := fun _ => "<div>empty frame</div>" }

def sampleEnvRaise : PandasEnv :=
  { backend := sampleBackend
    to_html := fun _ _ _ => .error (.toHtmlError "boom")
    repr_html := fun _ => "<div>empty frame</div>" }

def sampleOpts : PandasOptions :=
  { notebook_repr_html := true, max_colwidth := 50, max_rows := 60,
    max_columns := 20, show_dimensions := false }

def sampleOptsOff : PandasOptions := { sampleOpts with notebook_repr_html := false }

def sampleDf : DataFrame :=
  ⟨["t", "s"], [[.tile sampleTile, .other "x"], [.other "y", .tile sampleTile]]⟩

def sampleDfShort : DataFrame :=
  ⟨["t", "s"], [[.tile sampleTile, .other "x"]]⟩

def emptyDf : DataFrame := ⟨["t", "s"], []⟩

/-! ## Claims about `tile_to_png` and `tile_to_html` -/

/-- Claim C2: for every tile whose cell grid is absent (the `None`
sentinel), `tile_to_png` returns a no-value result (`none`), not an
error. -/
theorem tile_to_png_absent_cells (backend : PlotBackend) (tile : Tile)
    (h : tile.cells = none) : tile_to_png backend tile = none := by
  simp [tile_to_png, h]

theorem tile_to_png_absent_cells_witness :
    noCellsTile.cells = none ∧ tile_to_png sampleBackend noCellsTile = none :=
  ⟨rfl, tile_to_png_absent_cells sampleBackend noCellsTile rfl⟩

/-- Claim C10: for every tile whose cell grid is absent (so `tile_to_png`
returns `None`), `tile_to_html` raises a `TypeError` rather than returning
a string, because it base64-encodes the renderer's result without checking
for the no-value case. -/
theorem tile_to_html_absent_cells_raises (backend : PlotBackend) (tile : Tile)
    (h : tile.cells = none) :
    tile_to_html backend tile = .error .typeError := by
  simp [tile_to_html, tile_to_png, h, b64encodePy, Except.bind]

theorem tile_to_html_absent_cells_raises_witness :
    tile_to_html sampleBackend noCellsTile = .error .typeError :=
  tile_to_html_absent_cells_raises sampleBackend noCellsTile rfl

/-- Claim C3: for every tile with a non-absent cell grid, `tile_to_html`
returns the fixed `img` template with the base64 encoding of exactly the
PNG bytes `tile_to_png` produces for the same tile substituted in; the
encoded data contains no line breaks and base64-decodes back to exactly
those PNG bytes (round-trip law). -/
theorem tile_to_html_roundtrip (backend : PlotBackend) (tile : Tile)
    (grid : CellGrid) (h : tile.cells = some grid) :
    ∃ png : List (Fin 256),
      tile_to_png backend tile = some png ∧
      tile_to_html backend tile =
        .ok ("<img src=\"data:image/png;base64," ++
          String.mk (b64encode png) ++ "\" />") ∧
      (∀ c ∈ b64encode png, c ≠ '\n') ∧
      b64decode (b64encode png) = png.map Fin.val := by
  have hpng : tile_to_png backend tile =
      some (backend.print_png
        (nominal_size * (tile.width : ℚ) / dpi, nominal_size * (tile.height : ℚ) / dpi)
        grid (png_title tile)) := by
    simp [tile_to_png, h, Tile.dimensions]
  refine ⟨_, hpng, ?_, b64encode_no_nl _, b64decode_b64encode _⟩
  simp [tile_to_html, hpng, b64encodePy, Except.bind, replaceNewlines_b64encode]

theorem tile_to_html_roundtrip_witness :
    ∃ png : List (Fin 256),
      tile_to_png sampleBackend sampleTile = some png ∧
      tile_to_html sampleBackend sampleTile =
        .ok ("<img src=\"data:image/png;base64," ++
          String.mk (b64encode png) ++ "\" />") ∧
      (∀ c ∈ b64encode png, c ≠ '\n') ∧
      b64decode (b64encode png) = png.map Fin.val :=
  tile_to_html_roundtrip sampleBackend sampleTile sampleGrid rfl

/-- Claim C9: for every tile with a non-absent cell grid, `tile_to_png`
hands the backend a figure size computed from the tile's dimensions as
`(nominal_size * width / dpi, nominal_size * height / dpi)`, with the
fixed constants `nominal_size = 5.5` and `dpi = 300`. -/
theorem tile_to_png_figsize (backend : PlotBackend) (tile : Tile)
    (grid : CellGrid) (h : tile.cells = some grid) :
    tile_to_png backend tile =
      some (backend.print_png
        (nominal_size * (tile.width : ℚ) / dpi, nominal_size * (tile.height : ℚ) / dpi)
        grid (png_title tile)) ∧
    nominal_size = 5.5 ∧ dpi = 300 := by
  refine ⟨by simp [tile_to_png, h, Tile.dimensions], rfl, rfl⟩

theorem tile_to_png_figsize_witness :
    tile_to_png sampleBackend sampleTile =
      some (sampleBackend.print_png
        (nominal_size * (sampleTile.width : ℚ) / dpi,
         nominal_size * (sampleTile.height : ℚ) / dpi)
        sampleGrid (png_title sampleTile)) ∧
    nominal_size = 5.5 ∧ dpi = 300 :=
  tile_to_png_figsize sampleBackend sampleTile sampleGrid rfl

/-! ## Claims about `pandas_df_to_html` -/

/-- Claim C1 counterexample: the `max_colwidth` option is NOT restored on
every exit path. With a `to_html` that raises, the post-call option state
differs from the pre-call state: the source has no `try`/`finally`, so the
restoring `set_option` is never reached on the exception path. -/
theorem pandas_df_to_html_colwidth_not_restored_cex :
    (pandas_df_to_html sampleEnvRaise sampleOpts sampleDf).2.max_colwidth ≠
      sampleOpts.max_colwidth := by
  decide

/-- Claim C1, amended: `pandas_df_to_html` saves `max_colwidth`, sets it to
the unbounded sentinel `-1` for the `to_html` call, and restores the saved
value on the normal-return path (the final option state equals the
pre-call state); but when the inner `to_html` call raises, the restoring
call is never reached and the option is left at `-1`. -/
theorem pandas_df_to_html_colwidth_restore (env : PandasEnv)
    (opts : PandasOptions) (df : DataFrame) :
    (∀ s, (pandas_df_to_html env opts df).1 = .ok s →
        (pandas_df_to_html env opts df).2 = opts) ∧
    (∀ e, (pandas_df_to_html env opts df).1 = .error e →
        (pandas_df_to_html env opts df).2 = { opts with max_colwidth := -1 }) := by
  obtain ⟨nrh, mcw, mr, mc, sd⟩ := opts
  cases nrh
  · constructor
    · intro s _
      simp [pandas_df_to_html]
    · intro e he
      simp [pandas_df_to_html] at he
  · by_cases hlen : df.len = 0
    · constructor
      · intro s _
        simp [pandas_df_to_html, hlen]
      · intro e he
        simp [pandas_df_to_html, hlen] at he
    · rcases hto : env.to_html df
          (df_to_html_args env ⟨true, -1, mr, mc, sd⟩ df) ⟨true, -1, mr, mc, sd⟩ with e | s
      · constructor
        · intro s hs
          simp [pandas_df_to_html, hlen, hto] at hs
        · intro e' _
          simp [pandas_df_to_html, hlen, hto]
      · constructor
        · intro s' _
          simp [pandas_df_to_html, hlen, hto]
        · intro e he
          simp [pandas_df_to_html, hlen, hto] at he

theorem pandas_df_to_html_colwidth_restore_witness :
    (pandas_df_to_html sampleEnvOk sampleOpts sampleDf).2 = sampleOpts :=
  (pandas_df_to_html_colwidth_restore sampleEnvOk sampleOpts sampleDf).1
    (some "<table></table>") rfl

/-- Claim C4: with at least one row, a column is classified tile-bearing
iff it is a column of the frame whose first-row value is a Tile instance;
the classification is unchanged by anything in later rows (two frames with
the same columns and the same first row classify identically). -/
theorem tile_cols_row0_only (df : DataFrame) (h : 0 < df.len) :
    (∀ c, c ∈ tile_cols df ↔ c ∈ df.cols ∧ (df.iloc0 c).isTile = true) ∧
    (∀ df' : DataFrame, df.cols = df'.cols → df.cells.head? = df'.cells.head? →
        tile_cols df = tile_cols df') := by
  constructor
  · intro c
    simp [tile_cols, List.mem_filter]
  · intro df' hcols hhead
    unfold tile_cols DataFrame.iloc0
    simp only [hcols, hhead]

theorem tile_cols_row0_only_witness :
    0 < sampleDf.len ∧
    ("t" ∈ tile_cols sampleDf ↔
      "t" ∈ sampleDf.cols ∧ (sampleDf.iloc0 "t").isTile = true) ∧
    tile_cols sampleDf = tile_cols sampleDfShort :=
  ⟨by decide, (tile_cols_row0_only sampleDf (by decide)).1 "t",
   (tile_cols_row0_only sampleDf (by decide)).2 sampleDfShort rfl rfl⟩

/-- Claim C5: with HTML repr enabled and zero rows, `pandas_df_to_html`
returns exactly the dataframe's own default HTML representation, with the
option state untouched (no tile-aware rendering). -/
theorem pandas_df_to_html_zero_rows (env : PandasEnv) (opts : PandasOptions)
    (df : DataFrame) (hopt : opts.notebook_repr_html = true) (hlen : df.len = 0) :
    pandas_df_to_html env opts df = (.ok (some (env.repr_html df)), opts) := by
  simp [pandas_df_to_html, hopt, hlen]

theorem pandas_df_to_html_zero_rows_witness :
    pandas_df_to_html sampleEnvOk sampleOpts emptyDf =
      (.ok (some (sampleEnvOk.repr_html emptyDf)), sampleOpts) :=
  pandas_df_to_html_zero_rows sampleEnvOk sampleOpts emptyDf rfl rfl

/-- Claim C6: when the notebook HTML repr option is disabled,
`pandas_df_to_html` returns no-value unconditionally with the option state
untouched, and the outcome does not depend on the rendering environment at
all (no rendering is performed). -/
theorem pandas_df_to_html_disabled (env : PandasEnv) (opts : PandasOptions)
    (df : DataFrame) (hopt : opts.notebook_repr_html = false) :
    pandas_df_to_html env opts df = (.ok none, opts) ∧
    (∀ env' : PandasEnv, pandas_df_to_html env' opts df = pandas_df_to_html env opts df) := by
  constructor
  · simp [pandas_df_to_html, hopt]
  · intro env'
    simp [pandas_df_to_html, hopt]

theorem pandas_df_to_html_disabled_witness :
    pandas_df_to_html sampleEnvOk sampleOptsOff sampleDf = (.ok none, sampleOptsOff) ∧
    pandas_df_to_html sampleEnvRaise sampleOptsOff sampleDf =
      pandas_df_to_html sampleEnvOk sampleOptsOff sampleDf :=
  ⟨(pandas_df_to_html_disabled sampleEnvOk sampleOptsOff sampleDf rfl).1,
   (pandas_df_to_html_disabled sampleEnvOk sampleOptsOff sampleDf rfl).2 sampleEnvRaise⟩

/-- Claim C7: the per-cell formatting function installed for tile-bearing
columns renders a Tile via `tile_to_html` and anything else via its own
`__repr__`; `pandas_df_to_html` installs it for every tile-bearing
column. -/
theorem safe_tile_to_html_spec (env : PandasEnv) (df : DataFrame) :
    (∀ t : Tile, _safe_tile_to_html env.backend (.tile t) = tile_to_html env.backend t) ∧
    (∀ v : PyVal, v.isTile = false →
        _safe_tile_to_html env.backend v = .ok v.py_repr) ∧
    (∀ c ∈ tile_cols df,
        (c, _safe_tile_to_html env.backend) ∈ (df_to_html_args env sampleOpts df).formatters) := by
  refine ⟨fun t => rfl, ?_, ?_⟩
  · intro v hv
    cases v with
    | tile t => simp [PyVal.isTile] at hv
    | other s => rfl
  · intro c hc
    simp only [df_to_html_args, df_formatter, List.mem_map]
    exact ⟨c, hc, rfl⟩

theorem safe_tile_to_html_spec_witness :
    _safe_tile_to_html sampleBackend (.tile sampleTile) =
      tile_to_html sampleBackend sampleTile ∧
    _safe_tile_to_html sampleBackend (.other "x") = .ok (PyVal.py_repr (.other "x")) ∧
    ("t", _safe_tile_to_html sampleBackend) ∈
      (df_to_html_args sampleEnvOk sampleOpts sampleDf).formatters :=
  ⟨(safe_tile_to_html_spec sampleEnvOk sampleDf).1 sampleTile,
   (safe_tile_to_html_spec sampleEnvOk sampleDf).2.1 (.other "x") rfl,
   (safe_tile_to_html_spec sampleEnvOk sampleDf).2.2 "t" (by decide)⟩

/-- Claim C8: on the rendering path, `pandas_df_to_html` calls `to_html`
with escaping disabled, link rendering enabled, and the environment's
existing `max_rows`, `max_columns` and `show_dimensions` option values
passed through unchanged; and on every exit path every global display
option other than `max_colwidth` keeps its pre-call value. -/
theorem pandas_df_to_html_passthrough (env : PandasEnv) (opts : PandasOptions)
    (df : DataFrame) (hopt : opts.notebook_repr_html = true) (hlen : df.len ≠ 0) :
    (df_to_html_args env { opts with max_colwidth := -1 } df).escape = false ∧
    (df_to_html_args env { opts with max_colwidth := -1 } df).render_links = true ∧
    (df_to_html_args env { opts with max_colwidth := -1 } df).notebook = true ∧
    (df_to_html_args env { opts with max_colwidth := -1 } df).max_rows = opts.max_rows ∧
    (df_to_html_args env { opts with max_colwidth := -1 } df).max_cols = opts.max_columns ∧
    (df_to_html_args env { opts with max_colwidth := -1 } df).show_dimensions =
      opts.show_dimensions ∧
    (pandas_df_to_html env opts df).1 =
      (env.to_html df (df_to_html_args env { opts with max_colwidth := -1 } df)
        { opts with max_colwidth := -1 }).map some ∧
    (pandas_df_to_html env opts df).2.notebook_repr_html = opts.notebook_repr_html ∧
    (pandas_df_to_html env opts df).2.max_rows = opts.max_rows ∧
    (pandas_df_to_html env opts df).2.max_columns = opts.max_columns ∧
    (pandas_df_to_html env opts df).2.show_dimensions = opts.show_dimensions := by
  obtain ⟨nrh, mcw, mr, mc, sd⟩ := opts
  simp only [PandasOptions.notebook_repr_html] at hopt
  subst hopt
  have hres : pandas_df_to_html env ⟨true, mcw, mr, mc, sd⟩ df =
      match env.to_html df (df_to_html_args env ⟨true, -1, mr, mc, sd⟩ df)
          ⟨true, -1, mr, mc, sd⟩ with
      | .error e => (.error e, ⟨true, -1, mr, mc, sd⟩)
      | .ok return_html => (.ok (some return_html), ⟨true, mcw, mr, mc, sd⟩) := by
    simp [pandas_df_to_html, hlen]
  rcases hto : env.to_html df
      (df_to_html_args env ⟨true, -1, mr, mc, sd⟩ df) ⟨true, -1, mr, mc, sd⟩ with e | s <;>
    simp only [hres, hto] <;>
    simp [df_to_html_args, Except.map]

theorem pandas_df_to_html_passthrough_witness :
    (df_to_html_args sampleEnvOk { sampleOpts with max_colwidth := -1 } sampleDf).escape
      = false ∧
    (df_to_html_args sampleEnvOk { sampleOpts with max_colwidth := -1 } sampleDf).render_links
      = true ∧
    (df_to_html_args sampleEnvOk { sampleOpts with max_colwidth := -1 } sampleDf).notebook
      = true ∧
    (df_to_html_args sampleEnvOk { sampleOpts with max_colwidth := -1 } sampleDf).max_rows
      = sampleOpts.max_rows ∧
    (df_to_html_args sampleEnvOk { sampleOpts with max_colwidth := -1 } sampleDf).max_cols
      = sampleOpts.max_columns ∧
    (df_to_html_args sampleEnvOk { sampleOpts with max_colwidth := -1 } sampleDf).show_dimensions
      = sampleOpts.show_dimensions ∧
    (pandas_df_to_html sampleEnvOk sampleOpts sampleDf).1 =
      (sampleEnvOk.to_html sampleDf
        (df_to_html_args sampleEnvOk { sampleOpts with max_colwidth := -1 } sampleDf)
        { sampleOpts with max_colwidth := -1 }).map some ∧
    (pandas_df_to_html sampleEnvOk sampleOpts sampleDf).2.notebook_repr_html =
      sampleOpts.notebook_repr_html ∧
    (pandas_df_to_html sampleEnvOk sampleOpts sampleDf).2.max_rows = sampleOpts.max_rows ∧
    (pandas_df_to_html sampleEnvOk sampleOpts sampleDf).2.max_columns =
      sampleOpts.max_columns ∧
    (pandas_df_to_html sampleEnvOk sampleOpts sampleDf).2.show_dimensions =
      sampleOpts.show_dimensions :=
  pandas_df_to_html_passthrough sampleEnvOk sampleOpts sampleDf rfl (by decide)

end RfIpython
